import Mathlib

/-
  Shallow embedding of the guardian passwordless-authentication core
  (backend/app: services/token_service.py, services/rate_limit_service.py,
  services/jwt_service.py, models/token.py, api/routes/auth.py,
  core/config.py).

  Conventions of the embedding:
  * Timestamps are integers (seconds); python timedelta arithmetic on
    whole minutes is exact in this model.
  * UUIDs are opaque strings; freshly generated ids are passed in as
    parameters.
  * The database session is a pure value `DB` (lists of user and token
    rows); every service function threads it explicitly.
  * SHA-256 (python hashlib, external to the repository) is modelled by
    an injective tagging function: the core only ever compares digests
    for equality.
  * secrets.randbelow(1000000) is modelled by a parameter `draw` with
    the contract draw < 1000000.
-/

namespace Guardian

/-- Settings mirroring the pydantic defaults in core/config.py
(only the fields the core logic reads). -/
structure Settings where
  secret_key : String
  token_expiry_minutes : Nat
  token_length : Nat
  session_expiry_days : Nat
  rate_limit_requests : Nat
  rate_limit_window_minutes : Nat
  enable_email_whitelist : Bool
deriving Repr, DecidableEq

/-- Default values of the Settings fields in core/config.py. -/
def defaultSettings : Settings where
  secret_key := "dev-secret-key-change-in-production"
  token_expiry_minutes := 2
  token_length := 6
  session_expiry_days := 7
  rate_limit_requests := 3
  rate_limit_window_minutes := 15
  enable_email_whitelist := true

/-- Row of the users table (models/user.py). -/
structure UserRec where
  id : String
  email : String
  is_active : Bool
  created_at : Int
deriving Repr, DecidableEq

/-- Row of the tokens table (models/token.py). -/
structure TokenRec where
  id : String
  user_id : String
  token_hash : String
  expires_at : Int
  used_at : Option Int
  created_at : Int
deriving Repr, DecidableEq

/-- The relational store: users and tokens tables. -/
structure DB where
  users : List UserRec
  tokens : List TokenRec
deriving Repr, DecidableEq

/-- The empty store. -/
def emptyDB : DB := { users := [], tokens := [] }

/-- hash_token (token_service.py): SHA-256 hex digest of the code.
The digest function itself lives in python's hashlib, outside this
repository; it is modelled by an injective tagging function, since the
core only compares digests for equality. -/
def hash_token (token : String) : String :=
  String.append "sha256:" token

/-- Lookup `select(User).where(User.email == email)` +
`scalar_one_or_none()` as used by the services (emails are unique, the
first match is the row). -/
def findUserByEmail (db : DB) (email : String) : Option UserRec :=
  db.users.find? (fun u => u.email == email)

/-- SQLAlchemy `Result.scalar_one_or_none()`: none on zero rows, the
row on exactly one, and a raised MultipleResultsFound error on more
than one. -/
def scalar_one_or_none (rows : List α) : Except String (Option α) :=
  match rows with
  | [] => Except.ok none
  | [x] => Except.ok (some x)
  | _ => Except.error "MultipleResultsFound"

/-- The window-membership predicate of check_rate_limit
(rate_limit_service.py): `Token.user_id == user_id` and
`Token.created_at >= window_start`. -/
def inWindow (user_id : String) (window_start : Int) (t : TokenRec) : Bool :=
  t.user_id == user_id && decide (window_start ≤ t.created_at)

/-- The `func.count` query of check_rate_limit: number of the user's
token rows created inside the trailing window. -/
def requestCount (db : DB) (s : Settings) (user_id : String) (now : Int) : Nat :=
  (db.tokens.filter (inWindow user_id (now - s.rate_limit_window_minutes * 60))).length

/-- check_rate_limit (rate_limit_service.py, lines 23-108): returns
(allowed, attempts_remaining, retry_after_seconds). -/
def check_rate_limit (db : DB) (s : Settings) (user_id : String) (now : Int) :
    Bool × Nat × Int :=
  let window_start := now - s.rate_limit_window_minutes * 60
  let request_count := (db.tokens.filter (inWindow user_id window_start)).length
  if request_count ≥ s.rate_limit_requests then
    let oldest := ((db.tokens.filter (inWindow user_id window_start)).map
        (fun t => t.created_at)).min?
    let retry_after_seconds : Int :=
      match oldest with
      | some oldest_token_time =>
          max 1 (oldest_token_time + s.rate_limit_window_minutes * 60 - now)
      | none => s.rate_limit_window_minutes * 60
    (false, 0, retry_after_seconds)
  else
    (true, s.rate_limit_requests - request_count, 0)

/-- check_rate_limit_by_email (rate_limit_service.py, lines 111-143):
resolve the user by the email exactly as supplied; a missing user is
treated as zero prior requests. -/
def check_rate_limit_by_email (db : DB) (s : Settings) (email : String) (now : Int) :
    Bool × Nat × Int :=
  match findUserByEmail db email with
  | none => (true, s.rate_limit_requests - 1, 0)
  | some user => check_rate_limit db s user.id now

/-- create_token_for_user (token_service.py, lines 64-108): hash the
code, set expiry now + token_expiry_minutes, insert the row with
used_at NULL; `newId` models the generated UUID, `now` the server
clock. Returns the created row and the updated store. -/
def create_token_for_user (db : DB) (s : Settings) (user_id : String)
    (token : String) (newId : String) (now : Int) : TokenRec × DB :=
  let db_token : TokenRec :=
    { id := newId
      user_id := user_id
      token_hash := hash_token token
      expires_at := now + s.token_expiry_minutes * 60
      used_at := none
      created_at := now }
  (db_token, { db with tokens := db.tokens ++ [db_token] })

/-- The row filter of validate_token_for_user: matching user, matching
digest, `used_at IS NULL`, `expires_at > now`. -/
def validMatch (user_id token_hash : String) (now : Int) (t : TokenRec) : Bool :=
  t.user_id == user_id && t.token_hash == token_hash &&
    t.used_at.isNone && decide (now < t.expires_at)

/-- validate_token_for_user (token_service.py, lines 111-154): query
the matching rows and take `scalar_one_or_none()` of the result.  An
error value models a raised MultipleResultsFound. -/
def validate_token_for_user (db : DB) (user_id : String) (token : String)
    (now : Int) : Except String (Option TokenRec) :=
  scalar_one_or_none
    (db.tokens.filter (validMatch user_id (hash_token token) now))

/-- Token.mark_as_used (models/token.py) + commit inside
mark_token_as_used (token_service.py): set used_at of that row to the
current time. -/
def mark_token_as_used (db : DB) (tokenId : String) (now : Int) : DB :=
  let setUsed : TokenRec → TokenRec :=
    fun t => if t.id == tokenId then { t with used_at := some now } else t
  { db with tokens := db.tokens.map setUsed }

/-- cleanup_expired_tokens (token_service.py, lines 181-206): delete
every row with `expires_at < now`, returning the new store and the
deleted count. -/
def cleanup_expired_tokens (db : DB) (now : Int) : DB × Nat :=
  let deleted := db.tokens.filter (fun t => decide (t.expires_at < now))
  ({ db with tokens := db.tokens.filter (fun t => !decide (t.expires_at < now)) },
    deleted.length)

/-- get_or_create_user_by_email (token_service.py, lines 209-244):
look the email up exactly as supplied; insert a new active user with
that exact email when absent. `newId` models the generated UUID, `now`
the server-side creation timestamp. -/
def get_or_create_user_by_email (db : DB) (email : String) (newId : String)
    (now : Int) : UserRec × DB :=
  match findUserByEmail db email with
  | some user => (user, db)
  | none =>
      let user : UserRec :=
        { id := newId, email := email, is_active := true, created_at := now }
      (user, { db with users := db.users ++ [user] })

/-- Token.is_valid (models/token.py, lines 112-131): false when used,
false when `expires_at < now`, true otherwise. -/
def TokenRec.is_valid (t : TokenRec) (now : Int) : Bool :=
  if t.used_at.isSome then false
  else if t.expires_at < now then false
  else true

/-- Decimal digit character for d (0-9); callers pass d % 10. -/
def digitChar10 (d : Nat) : Char :=
  Char.ofNat (48 + d % 10)

/-- Python format string `f"{token:06d}"` restricted to the domain
token < 1000000 guaranteed by `secrets.randbelow(1000000)`: the six
decimal digits of the value, most significant first, zero-padded. -/
def format06 (n : Nat) : String :=
  String.mk [digitChar10 (n / 100000), digitChar10 (n / 10000),
    digitChar10 (n / 1000), digitChar10 (n / 100), digitChar10 (n / 10),
    digitChar10 n]

/-- generate_6_digit_token (token_service.py, lines 23-44): the random
draw `secrets.randbelow(1000000)` is modelled by the parameter `draw`
with contract draw < 1000000; the result is the draw zero-padded to 6
digits. The function reads no configuration. -/
def generate_6_digit_token (draw : Nat) : String :=
  format06 draw

/-- JWT payload built by create_access_token (jwt_service.py): sub,
email, exp, iat. -/
structure JwtClaims where
  sub : String
  email : String
  exp : Int
  iat : Int
deriving Repr, DecidableEq

/-- HMAC-SHA256 signature of `jwt.encode` (python-jose, external to
the repository): modelled by an injective pairing of the secret and
the payload, since verification only recomputes and compares. -/
def macSign (secret : String) (p : JwtClaims) : String :=
  String.append secret (String.append "|" (String.append p.sub
    (String.append "|" (String.append p.email (String.append "|"
      (String.append (toString p.exp) (String.append "|" (toString p.iat))))))))

/-- A compact serialized JWT: payload plus signature. -/
structure Jwt where
  payload : JwtClaims
  sig : String
deriving Repr, DecidableEq

/-- create_access_token (jwt_service.py, lines 18-62): expiry is
now + expires_delta when given, else now + session_expiry_days; the
payload carries sub = str(user.id), the email, exp and iat; the result
is signed with the configured secret. -/
def create_access_token (user : UserRec) (s : Settings) (now : Int)
    (expires_delta : Option Int) : Jwt :=
  let expire : Int :=
    match expires_delta with
    | some d => now + d
    | none => now + s.session_expiry_days * 86400
  let payload : JwtClaims :=
    { sub := user.id, email := user.email, exp := expire, iat := now }
  { payload := payload, sig := macSign s.secret_key payload }

/-- decode_access_token (jwt_service.py, lines 65-97): `jwt.decode`
verifies the signature and the exp claim (python-jose raises
ExpiredSignatureError when exp < now, with zero leeway); errors model
the raised JWTError subclasses. -/
def decode_access_token (token : Jwt) (s : Settings) (now : Int) :
    Except String JwtClaims :=
  if token.sig == macSign s.secret_key token.payload then
    if token.payload.exp < now then Except.error "ExpiredSignatureError"
    else Except.ok token.payload
  else Except.error "JWTError"

/-- verify_token (jwt_service.py, lines 100-138): decode, extract the
sub claim, return none on any JWTError. In this typed model the sub
claim is always present, so the `user_id is None` branch of the source
cannot fire. -/
def verify_token (token : Jwt) (s : Settings) (now : Int) : Option String :=
  match decode_access_token token s now with
  | Except.ok payload => some payload.sub
  | Except.error _ => none

/-- The private helper _mask_email (api/routes/auth.py, lines
434-457). -/
def mask_email (email : String) : String :=
  if !(email.contains '@') then "***"
  else
    let parts := email.splitOn "@"
    let username := parts.headD ""
    let domain := String.intercalate "@" parts.tail
    if username.length ≤ 1 then
      String.append username (String.append "***@" domain)
    else
      String.append (String.mk (username.toList.take 1))
        (String.append "***@" domain)

/-- Outward result of the request-token endpoint: HTTP 200 uniform
success, HTTP 429 rate-limited, or HTTP 403 whitelist rejection. -/
inductive RequestOutcome where
  | success (message : String) (email : String) (expires_in_minutes : Nat)
  | rateLimited (retry_after : Int)
  | forbidden (detail : String)
deriving Repr, DecidableEq

/-- request_token (api/routes/auth.py, lines 52-184): rate-limit check
by email; when denied, HTTP 429 with the retry-after hint.  When the
whitelist is enabled, a lookup of the LOWERCASED email that finds no
user yields HTTP 403.  Otherwise get-or-create the user (with the
email exactly as supplied), generate and store a token, notify
delivery (send_token_email always returns True and its result is
ignored, which `deliveryOk` models), and return the fixed success
message with the masked email.  `draw` models the random draw,
`newUserId`/`newTokenId` the generated UUIDs. -/
def request_token (db : DB) (s : Settings) (email : String) (now : Int)
    (draw : Nat) (newUserId newTokenId : String) (deliveryOk : Bool) :
    RequestOutcome × DB :=
  let rate_check := check_rate_limit_by_email db s email now
  if !rate_check.1 then
    (RequestOutcome.rateLimited rate_check.2.2, db)
  else if s.enable_email_whitelist &&
      (findUserByEmail db email.toLower).isNone then
    (RequestOutcome.forbidden
      "Email not authorized. Please contact your administrator to request access.",
      db)
  else
    let userAndDb := get_or_create_user_by_email db email newUserId now
    let token := generate_6_digit_token draw
    let db2 := (create_token_for_user userAndDb.2 s userAndDb.1.id token
      newTokenId now).2
    let _ := deliveryOk
    (RequestOutcome.success "If the email exists, a 6-digit code has been sent"
      (mask_email email) s.token_expiry_minutes, db2)

/-- Helper: a find? over an append whose first part has no hit
continues in the second part. -/
lemma find?_append_of_none {α} (p : α → Bool) (l1 l2 : List α)
    (h : l1.find? p = none) : (l1 ++ l2).find? p = l2.find? p := by
  induction l1 with
  | nil => simp
  | cons a t ih =>
      cases hpa : p a with
      | false =>
          simp only [List.cons_append, List.find?, hpa] at h ⊢
          exact ih h
      | true =>
          simp only [List.find?, hpa] at h
          cases h

/-- Helper: composing two filters is one filter with the conjoined
predicate. -/
lemma filter_of_filter {α} (l : List α) (p q : α → Bool) :
    (l.filter q).filter p = l.filter (fun a => p a && q a) := by
  induction l with
  | nil => rfl
  | cons a t ih =>
      cases hq : q a <;> cases hp : p a <;>
        simp [List.filter_cons, hq, hp, ih]

/-- Helper: splitting the length of a filter along a second boolean
predicate. -/
lemma length_filter_split {α} (l : List α) (p q : α → Bool) :
    (l.filter (fun a => p a && q a)).length +
      (l.filter (fun a => p a && !q a)).length = (l.filter p).length := by
  induction l with
  | nil => rfl
  | cons a t ih =>
      cases hq : q a <;> cases hp : p a <;>
        simp [List.filter_cons, hq, hp] <;> omega

/-- Helper: the characters emitted by digitChar10 are decimal
digits. -/
lemma digitChar10_isDigit (d : Nat) : (digitChar10 d).isDigit = true := by
  unfold digitChar10
  have h : d % 10 < 10 := Nat.mod_lt _ (by norm_num)
  set r := d % 10 with hr
  interval_cases r <;> decide

/-- Settings identical to the defaults except token_length := 8
(within the allowed 4..8 range of the config field). -/
def tokenLength8Settings : Settings :=
  { defaultSettings with token_length := 8 }

/-- C1 counterexample: with the default settings, a user with zero
token rows in the window (count = 0 < limit = 3) gets allowed = true
but remaining = 3, not limit - count - 1 = 2 as the claim states. -/
theorem c1_counterexample :
    check_rate_limit emptyDB defaultSettings "u1" 0 = (true, 3, 0) ∧
    requestCount emptyDB defaultSettings "u1" 0 = 0 ∧
    (check_rate_limit emptyDB defaultSettings "u1" 0).2.1 ≠
      defaultSettings.rate_limit_requests -
        requestCount emptyDB defaultSettings "u1" 0 - 1 := by
  decide

/-- C1 (amended): whenever the number of the user's token rows with
created_at inside the trailing window is below the limit, the check
returns allowed = true, remaining = limit - count (not limit - count -
1), and retry_after = 0. -/
theorem c1_allowed_remaining (db : DB) (s : Settings) (uid : String)
    (now : Int) (h : requestCount db s uid now < s.rate_limit_requests) :
    check_rate_limit db s uid now =
      (true, s.rate_limit_requests - requestCount db s uid now, 0) := by
  unfold check_rate_limit
  unfold requestCount at h ⊢
  rw [if_neg (Nat.not_le.mpr h)]

/-- C1 witness: the amended theorem evaluated at the empty store. -/
theorem c1_witness :
    check_rate_limit emptyDB defaultSettings "u1" 5 =
      (true, defaultSettings.rate_limit_requests -
        requestCount emptyDB defaultSettings "u1" 5, 0) :=
  c1_allowed_remaining emptyDB defaultSettings "u1" 5 (by decide)

/-- C5 counterexample: with token_length configured to 8, the
generator still emits 6 characters — it never reads the setting. -/
theorem c5_counterexample :
    (generate_6_digit_token 0).length ≠ tokenLength8Settings.token_length := by
  decide

/-- C5 (amended): every output of generate_6_digit_token is exactly 6
characters long and consists only of decimal digits, independent of
any configured token length; every value below 10^6 is reachable as
the zero-padded output of some draw. -/
theorem c5_digits (draw v : Nat) (hv : v < 1000000) :
    (generate_6_digit_token draw).length = 6 ∧
    (generate_6_digit_token draw).data.all Char.isDigit = true ∧
    ∃ d, d < 1000000 ∧ generate_6_digit_token d = format06 v := by
  refine ⟨rfl, ?_, ⟨v, hv, rfl⟩⟩
  simp [generate_6_digit_token, format06, digitChar10_isDigit]

/-- C5 witness: the amended theorem evaluated at draw = 5 and target
value 123. -/
theorem c5_witness :
    (generate_6_digit_token 5).length = 6 ∧
    (generate_6_digit_token 5).data.all Char.isDigit = true ∧
    ∃ d, d < 1000000 ∧ generate_6_digit_token d = format06 123 :=
  c5_digits 5 123 (by decide)

/-- C10: at the exact boundary expires_at = now, the redemption query
does not return the token (its filter needs expires_at strictly above
now), the reaper does not delete it (its filter needs expires_at
strictly below now), yet Token.is_valid still reports true for an
unused token — the model predicate and the redemption query disagree
there. -/
theorem c10_boundary (t : TokenRec) (uid code : String) (now : Int)
    (us : List UserRec) (hexp : t.expires_at = now) (hused : t.used_at = none) :
    validate_token_for_user { users := us, tokens := [t] } uid code now =
      Except.ok none ∧
    cleanup_expired_tokens { users := us, tokens := [t] } now =
      ({ users := us, tokens := [t] }, 0) ∧
    t.is_valid now = true := by
  refine ⟨?_, ?_, ?_⟩
  · unfold validate_token_for_user scalar_one_or_none
    have hm : validMatch uid (hash_token code) now t = false := by
      simp [validMatch, hexp]
    simp [hm]
  · unfold cleanup_expired_tokens
    simp [hexp]
  · simp [TokenRec.is_valid, hexp, hused]

/-- Token row sitting exactly at the expiry boundary for the C10
witness. -/
def boundaryTok : TokenRec :=
  { id := "tb", user_id := "u", token_hash := hash_token "123456"
    expires_at := 500, used_at := none, created_at := 400 }

/-- C10 witness: the boundary theorem evaluated at a concrete token
whose expires_at equals the clock. -/
theorem c10_witness :
    validate_token_for_user { users := [], tokens := [boundaryTok] } "u"
      "123456" 500 = Except.ok none ∧
    cleanup_expired_tokens { users := [], tokens := [boundaryTok] } 500 =
      ({ users := [], tokens := [boundaryTok] }, 0) ∧
    boundaryTok.is_valid 500 = true :=
  c10_boundary boundaryTok "u" "123456" 500 [] (by decide) (by decide)

/-- Store holding two unexpired, unused token rows for the same user
with the same code digest (the re-requested-codes situation). -/
def twoMatchDB : DB :=
  { users := []
    tokens := [
      { id := "t1", user_id := "u", token_hash := hash_token "123456"
        expires_at := 100, used_at := none, created_at := 0 },
      { id := "t2", user_id := "u", token_hash := hash_token "123456"
        expires_at := 100, used_at := none, created_at := 1 }] }

/-- C3 counterexample: with two unexpired unused rows matching the
same (user_id, hash), validate_token_for_user raises
MultipleResultsFound (scalar_one_or_none) instead of returning a
single record. -/
theorem c3_counterexample :
    (twoMatchDB.tokens.filter (validMatch "u" (hash_token "123456") 50)).length
      = 2 ∧
    validate_token_for_user twoMatchDB "u" "123456" 50 =
      Except.error "MultipleResultsFound" :=
  ⟨by decide, rfl⟩

/-- C3 (amended): on any mismatch (zero matching rows — wrong code,
expired, or already used) the redeem query returns the none signal and
never throws; but when two or more unexpired unused rows match the
same (user_id, hash), it raises MultipleResultsFound instead of
returning one record. -/
theorem c3_zero_or_many (db : DB) (uid code : String) (now : Int) :
    ((db.tokens.filter (validMatch uid (hash_token code) now)).length = 0 →
      validate_token_for_user db uid code now = Except.ok none) ∧
    (2 ≤ (db.tokens.filter (validMatch uid (hash_token code) now)).length →
      validate_token_for_user db uid code now =
        Except.error "MultipleResultsFound") := by
  constructor
  · intro hlen
    unfold validate_token_for_user
    rw [List.length_eq_zero.mp hlen]
    rfl
  · intro hlen
    unfold validate_token_for_user
    rcases hl : db.tokens.filter (validMatch uid (hash_token code) now) with
      _ | ⟨x, _ | ⟨y, rest⟩⟩
    · rw [hl] at hlen
      simp at hlen
    · rw [hl] at hlen
      simp at hlen
    · rfl

/-- C3 witness: at the two-row store, a wrong code yields the none
signal and the shared code yields the raised error. -/
theorem c3_witness :
    validate_token_for_user twoMatchDB "u" "999999" 50 = Except.ok none ∧
    validate_token_for_user twoMatchDB "u" "123456" 50 =
      Except.error "MultipleResultsFound" :=
  ⟨(c3_zero_or_many twoMatchDB "u" "999999" 50).1 (by decide),
   (c3_zero_or_many twoMatchDB "u" "123456" 50).2 (by decide)⟩

/-- C6: once a token issued for a user is redeemed and marked used
(used_at set non-null), a second redeem of the same code by the same
user returns the none signal; the first redeem returned the issued
row. -/
theorem c6_no_double_redeem (db : DB) (s : Settings) (uid code tokId : String)
    (now nowMark nowAgain : Int)
    (hfresh : ∀ t ∈ db.tokens,
      ¬(t.user_id = uid ∧ t.token_hash = hash_token code))
    (hexp : 0 < s.token_expiry_minutes) :
    validate_token_for_user (create_token_for_user db s uid code tokId now).2
        uid code now =
      Except.ok (some (create_token_for_user db s uid code tokId now).1) ∧
    validate_token_for_user
        (mark_token_as_used (create_token_for_user db s uid code tokId now).2
          tokId nowMark) uid code nowAgain = Except.ok none := by
  have hnone : ∀ (tm : Int) (l : List TokenRec),
      (∀ t ∈ l, t.user_id ≠ uid ∨ t.token_hash ≠ hash_token code) →
      l.filter (validMatch uid (hash_token code) tm) = [] := by
    intro tm l hl
    refine List.filter_eq_nil_iff.mpr ?_
    intro t ht
    rcases hl t ht with h | h <;> simp [validMatch, h]
  have hdb : ∀ tm : Int,
      db.tokens.filter (validMatch uid (hash_token code) tm) = [] := by
    intro tm
    refine hnone tm db.tokens ?_
    intro t ht
    exact not_and_or.mp (hfresh t ht)
  have hlt : now < now + (s.token_expiry_minutes : Int) * 60 := by omega
  constructor
  · unfold validate_token_for_user create_token_for_user
    simp only [List.filter_append, hdb now, List.nil_append]
    simp [validMatch, scalar_one_or_none, hlt]
  · unfold validate_token_for_user mark_token_as_used create_token_for_user
    simp only [List.map_append]
    have hmap : ∀ t2 ∈ db.tokens.map
        (fun t => if t.id == tokId then { t with used_at := some nowMark }
          else t),
        t2.user_id ≠ uid ∨ t2.token_hash ≠ hash_token code := by
      intro t2 ht2
      rcases List.mem_map.mp ht2 with ⟨t, ht, rfl⟩
      have hfields :
          (if t.id == tokId then { t with used_at := some nowMark }
            else t).user_id = t.user_id ∧
          (if t.id == tokId then { t with used_at := some nowMark }
            else t).token_hash = t.token_hash := by
        split <;> exact ⟨rfl, rfl⟩
      rcases not_and_or.mp (hfresh t ht) with h | h
      · left
        rw [hfields.1]
        exact h
      · right
        rw [hfields.2]
        exact h
    simp only [List.filter_append,
      hnone nowAgain _ hmap, List.nil_append]
    simp [validMatch, scalar_one_or_none]

/-- C6 witness: the double-redeem theorem evaluated on the empty store
with the default settings. -/
theorem c6_witness :
    validate_token_for_user
        (create_token_for_user emptyDB defaultSettings "u" "123456" "t1" 0).2
        "u" "123456" 0 =
      Except.ok
        (some (create_token_for_user emptyDB defaultSettings "u" "123456"
          "t1" 0).1) ∧
    validate_token_for_user
        (mark_token_as_used
          (create_token_for_user emptyDB defaultSettings "u" "123456" "t1" 0).2
          "t1" 10) "u" "123456" 20 = Except.ok none :=
  c6_no_double_redeem emptyDB defaultSettings "u" "123456" "t1" 0 10 20
    (by intro t ht; cases ht) (by decide)

/-- C7: a token row whose expires_at is strictly in the past is never
the value returned by validate_token_for_user, even when its used_at
is null. -/
theorem c7_expired_never_returned (db : DB) (uid code : String) (now : Int)
    (rec : TokenRec) (hexp : rec.expires_at < now) :
    validate_token_for_user db uid code now ≠ Except.ok (some rec) := by
  intro h
  unfold validate_token_for_user at h
  rcases hl : db.tokens.filter (validMatch uid (hash_token code) now) with
    _ | ⟨x, _ | ⟨y, rest⟩⟩
  · rw [hl] at h
    simp [scalar_one_or_none] at h
  · rw [hl] at h
    simp [scalar_one_or_none] at h
    have hmem : x ∈ db.tokens.filter (validMatch uid (hash_token code) now) := by
      rw [hl]
      exact List.mem_cons_self x []
    have hv := List.of_mem_filter hmem
    rw [h] at hv
    simp [validMatch] at hv
    obtain ⟨-, h4⟩ := hv
    omega
  · rw [hl] at h
    simp [scalar_one_or_none] at h

/-- Store holding one expired, never-used token row for the C7
witness. -/
def expiredTokDB : DB :=
  { users := []
    tokens := [
      { id := "te", user_id := "u", token_hash := hash_token "123456"
        expires_at := 100, used_at := none, created_at := 0 }] }

/-- C7 witness: the theorem evaluated at a concrete expired row. -/
theorem c7_witness :
    validate_token_for_user expiredTokDB "u" "123456" 200 ≠
      Except.ok (some
        { id := "te", user_id := "u", token_hash := hash_token "123456"
          expires_at := 100, used_at := none, created_at := 0 }) :=
  c7_expired_never_returned expiredTokDB "u" "123456" 200
    { id := "te", user_id := "u", token_hash := hash_token "123456"
      expires_at := 100, used_at := none, created_at := 0 } (by decide)

/-- Store for the C9 scenario: three tokens for one user created 280
to 300 seconds ago (inside the 15-minute window) that are already
expired at the observation instant 1000, because the default token
expiry of 2 minutes is shorter than the window. -/
def c9ScenarioDB : DB :=
  { users := []
    tokens := [
      { id := "t1", user_id := "u", token_hash := "h1"
        expires_at := 820, used_at := none, created_at := 700 },
      { id := "t2", user_id := "u", token_hash := "h2"
        expires_at := 830, used_at := none, created_at := 710 },
      { id := "t3", user_id := "u", token_hash := "h3"
        expires_at := 840, used_at := none, created_at := 720 }] }

/-- C9: the window count is over the rows present in the store, so
deleting k of a user's in-window rows by the reaper lowers the next
count by exactly k; concretely, with the default settings a user
denied before a cleanup is allowed right after it, at the same
instant. -/
theorem c9_reaper_affects_rate_limit :
    (∀ (db : DB) (s : Settings) (uid : String) (now : Int),
      requestCount (cleanup_expired_tokens db now).1 s uid now =
        requestCount db s uid now -
          (db.tokens.filter (fun t =>
            inWindow uid (now - s.rate_limit_window_minutes * 60) t &&
              decide (t.expires_at < now))).length) ∧
    ((check_rate_limit c9ScenarioDB defaultSettings "u" 1000).1 = false ∧
      (check_rate_limit (cleanup_expired_tokens c9ScenarioDB 1000).1
        defaultSettings "u" 1000).1 = true ∧
      (cleanup_expired_tokens c9ScenarioDB 1000).2 = 3) := by
  constructor
  · intro db s uid now
    unfold requestCount cleanup_expired_tokens
    have hsplit := length_filter_split db.tokens
      (inWindow uid (now - s.rate_limit_window_minutes * 60))
      (fun t => !decide (t.expires_at < now))
    simp only [Bool.not_not] at hsplit
    rw [filter_of_filter]
    omega
  · exact ⟨by decide, by decide, by decide⟩

/-- Concrete user record for the C8 witness. -/
def sampleUser : UserRec :=
  { id := "uid-1", email := "user@example.com", is_active := true
    created_at := 0 }

/-- C8: verifying a freshly minted session credential yields the
subject claim equal to the user's id, and at any instant strictly
after the embedded expiry the verification returns none. -/
theorem c8_session_roundtrip (user : UserRec) (s : Settings) (now later : Int)
    (hlate : (create_access_token user s now none).payload.exp < later) :
    verify_token (create_access_token user s now none) s now = some user.id ∧
    verify_token (create_access_token user s now none) s later = none := by
  constructor
  · unfold verify_token decode_access_token create_access_token
    have hexp : ¬(now + (s.session_expiry_days : Int) * 86400 < now) := by
      omega
    simp [hexp]
  · unfold verify_token decode_access_token
    unfold create_access_token at hlate ⊢
    simp only at hlate
    simp [hlate]

/-- C8 witness: the round-trip theorem evaluated at a concrete user
and the instant one second past the default 7-day expiry. -/
theorem c8_witness :
    verify_token (create_access_token sampleUser defaultSettings 0 none)
      defaultSettings 0 = some sampleUser.id ∧
    verify_token (create_access_token sampleUser defaultSettings 0 none)
      defaultSettings 604801 = none :=
  c8_session_roundtrip sampleUser defaultSettings 0 604801 (by decide)

/-- Settings identical to the defaults except with the email whitelist
disabled. -/
def noWhitelistSettings : Settings :=
  { defaultSettings with enable_email_whitelist := false }

/-- C2 counterexample: with the default settings (whitelist enabled)
and no matching user, request_token answers with a distinct 403
forbidden outcome — a second distinct outward signal besides the
rate-limited one. -/
theorem c2_counterexample :
    (request_token emptyDB defaultSettings "user@example.com" 0 5 "uid1"
      "tid1" true).1 =
      RequestOutcome.forbidden
        "Email not authorized. Please contact your administrator to request access." := by
  rfl

/-- C2 (amended): when the whitelist is off, or the lowercased email
resolves to an existing user, request_token reports the same uniform
success outward regardless of user existence and of the delivery
flag, and the only other outward signal is the rate-limited response;
when the whitelist is on and no user matches, a distinct forbidden
signal escapes. -/
theorem c2_uniform_success (db : DB) (s : Settings) (email : String)
    (now : Int) (draw : Nat) (nid tid : String) (d1 d2 : Bool)
    (hw : s.enable_email_whitelist = false ∨
      (findUserByEmail db email.toLower).isSome = true) :
    (request_token db s email now draw nid tid d1).1 =
      (request_token db s email now draw nid tid d2).1 ∧
    ((request_token db s email now draw nid tid d1).1 =
      RequestOutcome.success "If the email exists, a 6-digit code has been sent"
        (mask_email email) s.token_expiry_minutes ∨
     ∃ r, (request_token db s email now draw nid tid d1).1 =
       RequestOutcome.rateLimited r) := by
  have hcond : (s.enable_email_whitelist &&
      (findUserByEmail db email.toLower).isNone) = false := by
    rcases hw with h | h
    · simp [h]
    · cases hfind : findUserByEmail db email.toLower with
      | none => rw [hfind] at h; simp at h
      | some u => simp [hfind]
  by_cases hr : (check_rate_limit_by_email db s email now).1
  · constructor
    · simp [request_token, hr, hcond]
    · left
      simp [request_token, hr, hcond]
  · rw [Bool.not_eq_true] at hr
    constructor
    · simp [request_token, hr]
    · right
      exact ⟨(check_rate_limit_by_email db s email now).2.2,
        by simp [request_token, hr]⟩

/-- C2 witness: the amended theorem evaluated at the empty store with
the whitelist disabled. -/
theorem c2_witness :
    (request_token emptyDB noWhitelistSettings "a@b.com" 0 5 "u1" "t1"
      true).1 =
      (request_token emptyDB noWhitelistSettings "a@b.com" 0 5 "u1" "t1"
        false).1 ∧
    ((request_token emptyDB noWhitelistSettings "a@b.com" 0 5 "u1" "t1"
      true).1 =
      RequestOutcome.success "If the email exists, a 6-digit code has been sent"
        (mask_email "a@b.com") noWhitelistSettings.token_expiry_minutes ∨
     ∃ r, (request_token emptyDB noWhitelistSettings "a@b.com" 0 5 "u1" "t1"
       true).1 = RequestOutcome.rateLimited r) :=
  c2_uniform_success emptyDB noWhitelistSettings "a@b.com" 0 5 "u1" "t1"
    true false (Or.inl rfl)

/-- C4 counterexample: two requests whose emails differ only in letter
case create two distinct User records (no lowercasing happens before
the lookup or the insert). -/
theorem c4_counterexample :
    (get_or_create_user_by_email
      (get_or_create_user_by_email emptyDB "User@example.com" "id-1" 0).2
      "user@example.com" "id-2" 0).1.id ≠
      (get_or_create_user_by_email emptyDB "User@example.com" "id-1" 0).1.id ∧
    (get_or_create_user_by_email
      (get_or_create_user_by_email emptyDB "User@example.com" "id-1" 0).2
      "user@example.com" "id-2" 0).2.users.length = 2 := by
  decide

/-- C4 (amended): the core looks up and inserts the email string
exactly as supplied (no lowercase or trim), so two requests with
different email strings — case variants included — resolve to two
different User records. -/
theorem c4_no_normalization (db : DB) (e1 e2 id1 id2 : String)
    (now1 now2 : Int) (hne : e1 ≠ e2) (h1 : findUserByEmail db e1 = none)
    (h2 : findUserByEmail db e2 = none) :
    (get_or_create_user_by_email db e1 id1 now1).1.email = e1 ∧
    (get_or_create_user_by_email
      (get_or_create_user_by_email db e1 id1 now1).2 e2 id2 now2).1.email
      = e2 ∧
    (get_or_create_user_by_email
      (get_or_create_user_by_email db e1 id1 now1).2 e2 id2 now2).1 ≠
      (get_or_create_user_by_email db e1 id1 now1).1 := by
  have hu1 : get_or_create_user_by_email db e1 id1 now1 =
      ({ id := id1, email := e1, is_active := true, created_at := now1 },
       { db with users := db.users ++
          [{ id := id1, email := e1, is_active := true, created_at := now1 }] })
      := by
    unfold get_or_create_user_by_email
    rw [h1]
  have hbeq : (e1 == e2) = false := by
    simp [hne]
  have hfind2 : findUserByEmail
      { db with users := db.users ++
        [{ id := id1, email := e1, is_active := true, created_at := now1 }] }
      e2 = none := by
    unfold findUserByEmail at h2 ⊢
    rw [find?_append_of_none _ _ _ h2]
    simp [List.find?, hbeq]
  rw [hu1]
  have hu2 : get_or_create_user_by_email
      { db with users := db.users ++
        [{ id := id1, email := e1, is_active := true, created_at := now1 }] }
      e2 id2 now2 =
      ({ id := id2, email := e2, is_active := true, created_at := now2 },
       { db with users := (db.users ++
          [{ id := id1, email := e1, is_active := true, created_at := now1 }])
          ++ [{ id := id2, email := e2, is_active := true
                created_at := now2 }] }) := by
    unfold get_or_create_user_by_email
    rw [hfind2]
  refine ⟨rfl, ?_, ?_⟩
  · rw [hu2]
  · rw [hu2]
    intro heq
    exact hne (congrArg UserRec.email heq).symm

/-- C4 witness: the amended theorem evaluated at the empty store with
the two case variants of one address. -/
theorem c4_witness :
    (get_or_create_user_by_email emptyDB "User@example.com" "id-1" 0).1.email
      = "User@example.com" ∧
    (get_or_create_user_by_email
      (get_or_create_user_by_email emptyDB "User@example.com" "id-1" 0).2
      "user@example.com" "id-2" 0).1.email = "user@example.com" ∧
    (get_or_create_user_by_email
      (get_or_create_user_by_email emptyDB "User@example.com" "id-1" 0).2
      "user@example.com" "id-2" 0).1 ≠
      (get_or_create_user_by_email emptyDB "User@example.com" "id-1" 0).1 :=
  c4_no_normalization emptyDB "User@example.com" "user@example.com" "id-1"
    "id-2" 0 0 (by decide) rfl rfl

end Guardian
